import Mathlib

/-!
Shallow embedding of the query dispatch, caching and answer-shaping pipeline
of the AI DNS server (src/index.js).

Conventions of the embedding:
* JavaScript strings are Lean `String`s; the queries and answers involved are
  ASCII, so JS byte/UTF-16 lengths coincide with `String.length`.
* Timestamps are `Nat` milliseconds (`Date.now()` style); the cache TTL of
  `CONFIG.CACHE_TTL` seconds is compared in milliseconds.
* The external collaborators (the mathjs evaluator and the generative-text
  backend) are passed in as function parameters returning `Except`:
  a `.error` models a thrown JS exception / rejected promise.
* JS `Map` and the node-cache store are modelled as association lists where
  an insert prepends and a lookup takes the first (most recent) binding.
-/

namespace AiDns

/-- `CONFIG` object of src/index.js (lines 8-14). `PORT` is environment
dependent and not needed by any claim, so it is omitted. -/
structure Config where
  CACHE_TTL : Nat
  MAX_RESPONSE_LENGTH : Nat
  RATE_LIMIT_WINDOW : Nat
  RATE_LIMIT_MAX : Nat
  deriving Repr, DecidableEq

/-- The literal configuration values of src/index.js: TTL 3600 s,
TXT limit 255 bytes, rate window 60000 ms, rate max 100. -/
def CONFIG : Config :=
  { CACHE_TTL := 3600
    MAX_RESPONSE_LENGTH := 255
    RATE_LIMIT_WINDOW := 60000
    RATE_LIMIT_MAX := 100 }

/-- The cache TTL expressed in milliseconds, the unit of our timestamps. -/
def CACHE_TTL_MS : Nat := CONFIG.CACHE_TTL * 1000

/-- The answer object every handler returns:
`{ answer, cached, handler }` in src/index.js. -/
structure Answer where
  answer : String
  cached : Bool
  handler : String
  deriving Repr, DecidableEq

/-- The `stats` object of src/index.js (lines 26-32); `byCategory` is a JS
object used as a string-keyed counter map. -/
structure Stats where
  totalQueries : Nat
  cacheHits : Nat
  cacheMisses : Nat
  errors : Nat
  byCategory : List (String × Nat)
  deriving Repr, DecidableEq

/-- A rate-limit record per client (spec §3): window start and request count. -/
structure RateLimitRecord where
  windowStart : Nat
  count : Nat
  deriving Repr, DecidableEq

/-- A cache entry: the stored answer plus its insertion time
(node-cache tracks the expiry internally; we keep the insertion time). -/
structure CacheEntry where
  value : Answer
  insertedAt : Nat
  deriving Repr, DecidableEq

/-- The process-wide mutable state of src/index.js: `cache` (line 24),
`rateLimitMap` (line 25) and `stats` (lines 26-32). -/
structure GlobalState where
  cache : List (String × CacheEntry)
  rateLimitMap : List (String × RateLimitRecord)
  stats : Stats
  deriving Repr, DecidableEq

/-- First-match lookup in an association list (models `Map.get` /
node-cache `get` where an insert prepends the newest binding). -/
def lookupList {α : Type} : List (String × α) → String → Option α
  | [], _ => none
  | (k', v) :: rest, k => if k' = k then some v else lookupList rest k

/-- Insert by prepending; `lookupList` sees the newest binding, which is the
only observation the model makes (models `Map.set` / node-cache `set`). -/
def insertList {α : Type} (m : List (String × α)) (k : String) (v : α) :
    List (String × α) :=
  (k, v) :: m

/-- The external generative backend (`ai.models.generateContent`):
maps a prompt to either a failure (thrown error message) or a result whose
`.text` field may be absent (`none`). -/
def Backend : Type := String → Except String (Option String)

/-- The external mathjs `evaluate`: maps an expression string to either a
thrown error message or the stringified result. -/
def Evaluator : Type := String → Except String String

/- ============================================================
   Command-name parsing as the handlers perform it
   ============================================================ -/

/-- Core of JS `String.prototype.replace` with a case-insensitive,
non-global regex of a literal pattern and an empty replacement:
remove the first case-insensitive occurrence of `pat` (given lowercased)
anywhere in the character list. -/
def removeFirstCI (pat : List Char) : List Char → List Char
  | [] => []
  | c :: cs =>
    if ((c :: cs).take pat.length).map Char.toLower = pat then
      (c :: cs).drop pat.length
    else
      c :: removeFirstCI pat cs

/-- `query.replace(/pat/i, '')` for a literal pattern `pat`
(e.g. `/calc\./i`): removes the first case-insensitive occurrence. -/
def jsReplaceFirstCI (pat s : String) : String :=
  String.mk (removeFirstCI (pat.toList.map Char.toLower) s.toList)

/-- Split a character list on a separator character, JS `split` style:
the empty string yields `[[]]` (JS `''.split('.') === ['']`). -/
def splitChar (sep : Char) : List Char → List (List Char)
  | [] => [[]]
  | c :: cs =>
    let rest := splitChar sep cs
    if c = sep then [] :: rest
    else
      match rest with
      | [] => [[c]]
      | r :: rs => (c :: r) :: rs

/-- JS `s.split('.')`. -/
def jsSplitDot (s : String) : List String :=
  (splitChar '.' s.toList).map String.mk

/-- The `query.replace(/cmd\./i, '').split('.').join(' ')` idiom shared by
most handlers in src/index.js. -/
def dotArgs (cmd query : String) : String :=
  String.intercalate " " (jsSplitDot (jsReplaceFirstCI cmd query))

/-- The expression string `handlers.calc` builds from the query
(src/index.js line 42). -/
def calcExpression (query : String) : String := dotArgs "calc." query

/-- The input string `handlers.unit` builds from the query
(src/index.js line 99). -/
def unitExpression (query : String) : String := dotArgs "unit." query

/- ============================================================
   Sync-local handlers (calc, unit, stats, help)
   ============================================================ -/

/-- `handlers.calc` (src/index.js lines 40-48): evaluate the parsed
expression; a thrown evaluator error is caught and surfaced as a
"Math error:" answer, so the handler always returns an `Answer`
(totality of this function models "never throws"). -/
def handlers_calc (evaluate : Evaluator) (query : String) : Answer :=
  let expression := calcExpression query
  match evaluate expression with
  | .ok result =>
      { answer := expression ++ " = " ++ result, cached := false, handler := "calc" }
  | .error e =>
      { answer := "Math error: " ++ e, cached := false, handler := "calc" }

/-- `handlers.unit` (src/index.js lines 97-106): same shape as `calc` with a
"Conversion error:" message on failure. -/
def handlers_unit (evaluate : Evaluator) (query : String) : Answer :=
  let input := unitExpression query
  match evaluate input with
  | .ok result =>
      { answer := input ++ " = " ++ result, cached := false, handler := "unit" }
  | .error e =>
      { answer := "Conversion error: " ++ e, cached := false, handler := "unit" }

/-- `handlers.stats` (src/index.js lines 144-147), reading the global `stats`
counters. -/
def handlers_stats (st : Stats) : Answer :=
  { answer := "Queries:" ++ toString st.totalQueries ++ " Cache:" ++
      toString st.cacheHits ++ "/" ++ toString st.totalQueries ++
      " Errors:" ++ toString st.errors
    cached := false
    handler := "stats" }

/-- `handlers.help` (src/index.js lines 149-152). -/
def handlers_help : Answer :=
  { answer := "Commands: calc translate code timezone convert spell onthisday unit acronym tip weather fact define stats help"
    cached := false
    handler := "help" }

/- ============================================================
   The generative answer gateway: callAI (src/index.js lines 155-177)
   ============================================================ -/

/-- Bump a string-keyed counter:
`stats.byCategory[category] = (stats.byCategory[category] || 0) + 1`. -/
def bumpCategory (m : List (String × Nat)) (category : String) :
    List (String × Nat) :=
  insertList m category ((lookupList m category).getD 0 + 1)

/-- `callAI(prompt, category)` (src/index.js lines 155-177) over the global
state. The external backend call is the `backend` parameter. Inside the
`try` block:
* a backend failure jumps to the `catch`: `stats.errors++` and rethrow;
* on success, `const answer = result.text || 'No response generated.'`;
* the truncation branch (lines 166-168) assigns to the `const` binding
  `answer`, which in an ES module throws a `TypeError` at runtime; the
  surrounding `catch` treats it like any other error — `stats.errors++`
  and rethrow — so an over-long response never yields an `Answer`;
* otherwise `stats.byCategory[category]` is bumped and
  `{ answer, cached: false, handler: 'ai' }` is returned. -/
def callAI (backend : Backend) (prompt category : String) (g : GlobalState) :
    Except String Answer × GlobalState :=
  match backend prompt with
  | .error e =>
      (.error e,
       { g with stats := { g.stats with errors := g.stats.errors + 1 } })
  | .ok t =>
      let answer :=
        match t with
        | none => "No response generated."
        | some s => if s = "" then "No response generated." else s
      if CONFIG.MAX_RESPONSE_LENGTH < answer.length then
        (.error "Assignment to constant variable.",
         { g with stats := { g.stats with errors := g.stats.errors + 1 } })
      else
        (.ok { answer := answer, cached := false, handler := "ai" },
         { g with stats :=
             { g.stats with byCategory := bumpCategory g.stats.byCategory category } })

/- ============================================================
   Remote-backed handlers (prompt construction + callAI)
   ============================================================ -/

/-- `handlers.translate` (src/index.js lines 51-58). JS destructuring
`[from, to, ...words]` yields `undefined` for a missing element, which a
template literal renders as the string `"undefined"`. -/
def handlers_translate (backend : Backend) (query : String) (g : GlobalState) :
    Except String Answer × GlobalState :=
  let parts := jsSplitDot (jsReplaceFirstCI "translate." query)
  let fromLang := parts.getD 0 "undefined"
  let toLang := parts.getD 1 "undefined"
  let text := String.intercalate " " (parts.drop 2)
  callAI backend
    ("Translate \"" ++ text ++ "\" from " ++ fromLang ++ " to " ++ toLang ++
      ". Reply with ONLY the translation, no explanations.")
    "translation" g

/-- `handlers.code` (src/index.js lines 61-65). -/
def handlers_code (backend : Backend) (query : String) (g : GlobalState) :
    Except String Answer × GlobalState :=
  let request := dotArgs "code." query
  callAI backend
    ("Provide a one-line code snippet for: " ++ request ++
      ". Format as: language: code")
    "code" g

/-- `handlers.timezone` (src/index.js lines 68-72). -/
def handlers_timezone (backend : Backend) (query : String) (g : GlobalState) :
    Except String Answer × GlobalState :=
  let location := dotArgs "timezone." query
  callAI backend
    ("What is the current timezone for " ++ location ++
      "? Reply with timezone name and UTC offset only (e.g., \"EST UTC-5\").")
    "timezone" g

/-- `handlers.convert` (src/index.js lines 75-80). -/
def handlers_convert (backend : Backend) (query : String) (g : GlobalState) :
    Except String Answer × GlobalState :=
  let parts := jsSplitDot (jsReplaceFirstCI "convert." query)
  let amount := parts.getD 0 "undefined"
  let fromCur := parts.getD 1 "undefined"
  let toCur := parts.getD 2 "undefined"
  callAI backend
    ("Convert " ++ amount ++ " " ++ fromCur ++ " to " ++ toCur ++
      ". Reply with just the converted amount and currency (e.g., \"100 USD = 85 EUR\").")
    "conversion" g

/-- `handlers.spell` (src/index.js lines 83-87). -/
def handlers_spell (backend : Backend) (query : String) (g : GlobalState) :
    Except String Answer × GlobalState :=
  let word := dotArgs "spell." query
  callAI backend
    ("Is \"" ++ word ++
      "\" spelled correctly? If not, provide the correct spelling. Reply in format: \"Correct\" or \"Incorrect: [correct spelling]\".")
    "spell" g

/-- `handlers.onthisday` (src/index.js lines 90-94). -/
def handlers_onthisday (backend : Backend) (query : String) (g : GlobalState) :
    Except String Answer × GlobalState :=
  let date := dotArgs "onthisday." query
  callAI backend
    ("What significant event happened on " ++ date ++
      "? Reply with one brief historical fact.")
    "history" g

/-- `handlers.acronym` (src/index.js lines 109-113). -/
def handlers_acronym (backend : Backend) (query : String) (g : GlobalState) :
    Except String Answer × GlobalState :=
  let abbr := dotArgs "acronym." query
  callAI backend
    ("What does the acronym \"" ++ abbr ++
      "\" stand for? Provide the most common meaning in one sentence.")
    "acronym" g

/-- `handlers.tip` (src/index.js lines 116-120). -/
def handlers_tip (backend : Backend) (query : String) (g : GlobalState) :
    Except String Answer × GlobalState :=
  let topic := dotArgs "tip." query
  callAI backend
    ("Give one practical tip about " ++ topic ++ " in one sentence.") "tip" g

/-- `handlers.weather` (src/index.js lines 123-127). -/
def handlers_weather (backend : Backend) (query : String) (g : GlobalState) :
    Except String Answer × GlobalState :=
  let location := dotArgs "weather." query
  callAI backend
    ("Describe the typical weather in " ++ location ++ " in one sentence.")
    "weather" g

/-- `handlers.fact` (src/index.js lines 130-134). -/
def handlers_fact (backend : Backend) (query : String) (g : GlobalState) :
    Except String Answer × GlobalState :=
  let topic := dotArgs "fact." query
  callAI backend
    ("Share one interesting fact about " ++ topic ++ " in one sentence.")
    "fact" g

/-- `handlers.define` (src/index.js lines 137-141). -/
def handlers_define (backend : Backend) (query : String) (g : GlobalState) :
    Except String Answer × GlobalState :=
  let word := dotArgs "define." query
  callAI backend ("Define \"" ++ word ++ "\" in one concise sentence.")
    "definition" g

/- ============================================================
   Rate limiter, cache and dispatcher.
   src/index.js declares `cache`, `rateLimitMap` and `stats` (lines 24-32)
   but contains no dispatch loop wiring them together, so the components
   below are modelled from the spec.
   ============================================================ -/

/-- Modelled from the spec: §4.5 Rate Limiter `check(clientKey)` — the
enforcement code is absent from src/ (only `rateLimitMap` is declared).
First request creates `{windowStart := now, count := 1}` and allows; a
request with `now - windowStart ≥ RATE_LIMIT_WINDOW` resets the record the
same way and allows; otherwise the count is incremented and the request is
allowed exactly when the new count does not exceed `RATE_LIMIT_MAX`. -/
def rateCheck (rec : Option RateLimitRecord) (now : Nat) :
    Bool × RateLimitRecord :=
  match rec with
  | none => (true, { windowStart := now, count := 1 })
  | some r =>
    if CONFIG.RATE_LIMIT_WINDOW ≤ now - r.windowStart then
      (true, { windowStart := now, count := 1 })
    else
      (decide (r.count + 1 ≤ CONFIG.RATE_LIMIT_MAX),
       { r with count := r.count + 1 })

/-- Run a sequence of requests (their timestamps) of one client through the
rate limiter, returning the final record and the allow/reject verdicts in
order. -/
def runRate : Option RateLimitRecord → List Nat → Option RateLimitRecord × List Bool
  | rec, [] => (rec, [])
  | rec, t :: ts =>
    let p := rateCheck rec t
    let rest := runRate (some p.2) ts
    (rest.1, p.1 :: rest.2)

/-- Modelled from the spec: §4.4 Response Cache `get` — the cache lookup
code is absent from src/ (only the node-cache instance is declared, line
24, with `stdTTL := CONFIG.CACHE_TTL` seconds). An entry is fresh while
`now - insertedAt < CACHE_TTL_MS`; an expired entry is a miss. -/
def cacheGet (c : List (String × CacheEntry)) (key : String) (now : Nat) :
    Option Answer :=
  match lookupList c key with
  | some e => if now - e.insertedAt < CACHE_TTL_MS then some e.value else none
  | none => none

/-- Modelled from the spec: §4.4 Response Cache `set`. -/
def cacheSet (c : List (String × CacheEntry)) (key : String) (a : Answer)
    (now : Nat) : List (String × CacheEntry) :=
  insertList c key { value := a, insertedAt := now }

/-- Modelled from the spec: §4.5 — the fixed "rate limit exceeded" textual
answer a rejected request still receives. -/
def rateLimitAnswer : Answer :=
  { answer := "Rate limit exceeded", cached := false, handler := "ratelimit" }

/-- Modelled from the spec: §4.3/§7 — the generic "temporarily unavailable"
fallback answer the Dispatcher substitutes for a gateway failure. -/
def unavailableAnswer : Answer :=
  { answer := "Service temporarily unavailable", cached := false, handler := "error" }

/-- Modelled from the spec: §4.7 step (7) and the §3 invariant — truncate
answer text that exceeds `MAX_RESPONSE_LENGTH` to 252 characters plus a
3-character ellipsis marker. -/
def truncateText (s : String) : String :=
  if s.length ≤ CONFIG.MAX_RESPONSE_LENGTH then s
  else String.mk (s.toList.take (CONFIG.MAX_RESPONSE_LENGTH - 3)) ++ "..."

/-- Modelled from the spec: §4.7 step (7) applied to an `Answer`. -/
def truncateAnswer (a : Answer) : Answer :=
  { a with answer := truncateText a.answer }

/-- Modelled from the spec: §4.7 Dispatcher — absent from src/, which stops
after the handler definitions. Steps in order: (1) `totalQueries++`;
(2) rate-limit check, rejecting with the fixed answer; (4) cache lookup by
the normalized key — on a hit the returned answer is a copy marked
`cached := true` and `cacheHits` is bumped, the stored entry untouched;
else `cacheMisses++`; (5) invoke the handler; (6) on success store the
answer, on failure build the fallback answer and `errors++`; (7) truncate
the outgoing text; (8) hand the answer back. The handler argument covers
step (3)-parsing, which in src/ happens inside each handler. -/
def dispatch (h : GlobalState → Except String Answer × GlobalState)
    (key clientKey : String) (now : Nat) (g0 : GlobalState) :
    Answer × GlobalState :=
  let g1 : GlobalState :=
    { g0 with stats := { g0.stats with totalQueries := g0.stats.totalQueries + 1 } }
  let rc := rateCheck (lookupList g1.rateLimitMap clientKey) now
  let g2 : GlobalState :=
    { g1 with rateLimitMap := insertList g1.rateLimitMap clientKey rc.2 }
  if rc.1 = false then (rateLimitAnswer, g2)
  else
    match cacheGet g2.cache key now with
    | some a =>
        (truncateAnswer { a with cached := true },
         { g2 with stats := { g2.stats with cacheHits := g2.stats.cacheHits + 1 } })
    | none =>
        let g3 : GlobalState :=
          { g2 with stats := { g2.stats with cacheMisses := g2.stats.cacheMisses + 1 } }
        let hr := h g3
        match hr.1 with
        | .ok a =>
            (truncateAnswer a, { hr.2 with cache := cacheSet hr.2.cache key a now })
        | .error _ =>
            (truncateAnswer unavailableAnswer,
             { hr.2 with stats := { hr.2.stats with errors := hr.2.stats.errors + 1 } })

/- ============================================================
   Auxiliary definitions used by the theorems
   ============================================================ -/

/-- Modelled from the spec: §4.1 Command Parser contract — strip the command
prefix case-insensitively from the front only (a no-op when the name does
not start with it). Used to compare the spec's parsing contract with the
parsing the handlers actually perform. -/
def stripFrontCI (pat s : String) : String :=
  if (s.toList.take pat.length).map Char.toLower = pat.toList.map Char.toLower
  then String.mk (s.toList.drop pat.length) else s

/-- Modelled from the spec: §4.1 — the expression the spec's parser contract
yields for a `calc` name (front prefix strip, split on dots). -/
def specCalcExpression (query : String) : String :=
  String.intercalate " " (jsSplitDot (stripFrontCI "calc." query))

/-- A 300-character backend response (the scenario of spec §8). -/
def longBackendText : String := String.mk (List.replicate 300 'a')

/-- A backend whose `.text` is the 300-character response, for every prompt. -/
def backend300 : Backend := fun _ => .ok (some longBackendText)

/-- A backend that always fails with a network error. -/
def backendNetErr : Backend := fun _ => .error "network error"

/-- An evaluator oracle knowing only that 2 + 2 = 4 (the external mathjs
`evaluate` on the concrete scenario input). -/
def evalDemo : Evaluator :=
  fun s => if s = "2 + 2" then .ok "4" else .error "Undefined symbol"

/-- An evaluator that always throws, with the message mathjs uses for an
unknown symbol. -/
def evalErr : Evaluator := fun _ => .error "Undefined symbol x"

/-- An empty global state: fresh cache, rate-limit map and zeroed stats. -/
def emptyState : GlobalState :=
  { cache := [], rateLimitMap := [], stats := ⟨0, 0, 0, 0, []⟩ }

/-- A handler returning a fixed successful answer and leaving the global
state untouched, standing for a sync-local handler such as `calc`. -/
def constHandler (a : Answer) : GlobalState → Except String Answer × GlobalState :=
  fun g => (.ok a, g)

/-- `res` is either a failure or an answer with `cached = false`. -/
def okCachedFalse : Except String Answer → Prop
  | .ok a => a.cached = false
  | .error _ => True

/-- `f` never touches the cache or the rate-limit map, its result does not
depend on the global state, and a successful result is never pre-marked as
cached. -/
def preservesMaps (f : GlobalState → Except String Answer × GlobalState) : Prop :=
  ∀ g g' : GlobalState,
    (f g).2.cache = g.cache
    ∧ (f g).2.rateLimitMap = g.rateLimitMap
    ∧ (f g).1 = (f g').1
    ∧ okCachedFalse (f g).1

/- ============================================================
   Helper lemmas
   ============================================================ -/

/-- Truncation really enforces the TXT bound. -/
theorem truncateText_length_le (s : String) :
    (truncateText s).length ≤ CONFIG.MAX_RESPONSE_LENGTH := by
  unfold truncateText
  split
  · assumption
  · rw [String.length_append]
    have h2 : (String.mk (s.toList.take (CONFIG.MAX_RESPONSE_LENGTH - 3))).length
        = (s.toList.take (CONFIG.MAX_RESPONSE_LENGTH - 3)).length := rfl
    have h3 : ("..." : String).length = 3 := rfl
    have h4 : (s.toList.take (CONFIG.MAX_RESPONSE_LENGTH - 3)).length
        ≤ CONFIG.MAX_RESPONSE_LENGTH - 3 :=
      List.length_take_le _ _
    have h5 : (3 : Nat) ≤ CONFIG.MAX_RESPONSE_LENGTH := by decide
    omega

/-- Truncation changes only the text, not the `cached` or `handler` fields. -/
theorem truncateAnswer_fields (a : Answer) :
    (truncateAnswer a).cached = a.cached ∧ (truncateAnswer a).handler = a.handler
    ∧ (truncateAnswer a).answer = truncateText a.answer :=
  ⟨rfl, rfl, rfl⟩

/-- The truncated answer text meets the 255-byte TXT bound. -/
theorem truncateAnswer_length_le (a : Answer) :
    (truncateAnswer a).answer.length ≤ 255 := by
  have h := truncateText_length_le a.answer
  have hmax : CONFIG.MAX_RESPONSE_LENGTH = 255 := rfl
  rw [hmax] at h
  exact h

/- ============================================================
   Claim theorems
   ============================================================ -/

/-- C1: For every query processed by the service — whatever the handler and
however long the text it produces — the Answer the Dispatcher hands back to
the DNS response encoder has text of length at most 255. -/
theorem dispatch_text_within_bound
    (h : GlobalState → Except String Answer × GlobalState)
    (key clientKey : String) (now : Nat) (g : GlobalState) :
    (dispatch h key clientKey now g).1.answer.length ≤ 255 := by
  simp only [dispatch]
  split
  · exact (by decide : rateLimitAnswer.answer.length ≤ 255)
  · split
    · exact truncateAnswer_length_le _
    · split
      · exact truncateAnswer_length_le _
      · exact truncateAnswer_length_le _

set_option maxRecDepth 8192 in
/-- C2 (failing input): the truncation branch of `callAI` assigns to the
`const` binding `answer`, so a 300-character backend response makes the
`try` block throw a `TypeError`; the `catch` increments `stats.errors` and
rethrows. `callAI` therefore returns no `Answer` at all for it — while the
intended truncation (spec §4.3, modelled by `truncateText`) would produce
exactly 252 characters plus the 3-character ellipsis marker. -/
theorem callAI_const_bug_on_300 :
    callAI backend300 "prompt" "general" emptyState
      = (.error "Assignment to constant variable.",
         { emptyState with stats := { emptyState.stats with errors := 1 } })
    ∧ truncateText longBackendText
        = String.mk (List.replicate 252 'a') ++ "..."
    ∧ (truncateText longBackendText).length = 255 := by
  refine ⟨rfl, ?_, ?_⟩
  · rfl
  · rfl

/-- C9: `handlers.stats` formats the counters as
`Queries:<totalQueries> Cache:<cacheHits>/<totalQueries> Errors:<errors>`;
with prior state `{totalQueries := 5, cacheHits := 2, errors := 1}` the
answer text is exactly `"Queries:5 Cache:2/5 Errors:1"`. -/
theorem handlers_stats_format (t hits misses errs : Nat)
    (bc : List (String × Nat)) :
    handlers_stats ⟨t, hits, misses, errs, bc⟩
      = { answer := "Queries:" ++ toString t ++ " Cache:" ++ toString hits ++
            "/" ++ toString t ++ " Errors:" ++ toString errs
          cached := false
          handler := "stats" }
    ∧ handlers_stats ⟨5, 2, 0, 1, []⟩
      = { answer := "Queries:5 Cache:2/5 Errors:1"
          cached := false
          handler := "stats" } := by
  exact ⟨rfl, rfl⟩

/-- C5: for a valid calc expression (one the evaluator accepts), the handler
returns the normalized expression, an equals sign and the evaluator's
result, with `handler = "calc"`; it never throws (it is a total function).
In particular `calc.2.+.2` parses to `"2 + 2"` and yields `"2 + 2 = 4"`. -/
theorem handlers_calc_valid (ev : Evaluator) (query r : String)
    (h : ev (calcExpression query) = .ok r) :
    handlers_calc ev query
      = { answer := calcExpression query ++ " = " ++ r
          cached := false, handler := "calc" }
    ∧ (query = "calc.2.+.2" → r = "4" →
        handlers_calc ev query
          = { answer := "2 + 2 = 4", cached := false, handler := "calc" }) := by
  have h1 : handlers_calc ev query
      = { answer := calcExpression query ++ " = " ++ r
          cached := false, handler := "calc" } := by
    simp only [handlers_calc, h]
  refine ⟨h1, ?_⟩
  rintro rfl rfl
  rw [h1]
  decide

/-- C5 witness: the theorem applied to the oracle evaluator and the concrete
scenario query. -/
theorem handlers_calc_valid_witness :
    handlers_calc evalDemo "calc.2.+.2"
      = { answer := "2 + 2 = 4", cached := false, handler := "calc" } :=
  (handlers_calc_valid evalDemo "calc.2.+.2" "4" rfl).2 rfl rfl

/-- C6: when the evaluator throws, `calc` and `unit` catch the failure and
return a textual error answer — "Math error:" / "Conversion error:"
followed by the evaluator's message verbatim — instead of propagating the
exception; both handlers are total functions, so they return some Answer
on every input. -/
theorem handlers_calc_unit_error (ev : Evaluator) (q m : String) :
    (ev (calcExpression q) = .error m →
      handlers_calc ev q
        = { answer := "Math error: " ++ m, cached := false, handler := "calc" })
    ∧ (ev (unitExpression q) = .error m →
      handlers_unit ev q
        = { answer := "Conversion error: " ++ m, cached := false, handler := "unit" }) := by
  constructor
  · intro h
    simp only [handlers_calc, h]
  · intro h
    simp only [handlers_unit, h]

/-- C6 witness: the theorem applied to an always-throwing evaluator at
concrete queries. -/
theorem handlers_calc_unit_error_witness :
    handlers_calc evalErr "calc.x"
      = { answer := "Math error: Undefined symbol x"
          cached := false, handler := "calc" }
    ∧ handlers_unit evalErr "unit.x"
      = { answer := "Conversion error: Undefined symbol x"
          cached := false, handler := "unit" } :=
  ⟨(handlers_calc_unit_error evalErr "calc.x" "Undefined symbol x").1 rfl,
   (handlers_calc_unit_error evalErr "unit.x" "Undefined symbol x").2 rfl⟩

/-- When the pattern matches case-insensitively at the very front, the
regex replace simply drops the first `pat.length` characters. -/
theorem removeFirstCI_front (pat s : List Char) (hne : pat ≠ [])
    (h : (s.take pat.length).map Char.toLower = pat) :
    removeFirstCI pat s = s.drop pat.length := by
  cases s with
  | nil =>
    simp only [List.take_nil, List.map_nil] at h
    exact absurd h.symm hne
  | cons c cs =>
    unfold removeFirstCI
    rw [if_pos h]

/-- C8 counterexample: the handlers' parsing does not strip the command
prefix from the front of the name — it removes the first case-insensitive
occurrence of `"calc."` anywhere — and it does not strip the resolved
top-level suffix. On `"2.+.calc.2"` the code deletes the middle labels
`calc.` while the spec's front-stripping contract would keep them; on
`"calc.2.+.2.example.com"` the suffix labels survive into the expression. -/
theorem parser_not_front_and_no_suffix_strip :
    calcExpression "2.+.calc.2" = "2 + 2"
    ∧ specCalcExpression "2.+.calc.2" = "2 + calc 2"
    ∧ calcExpression "2.+.calc.2" ≠ specCalcExpression "2.+.calc.2"
    ∧ calcExpression "calc.2.+.2.example.com" = "2 + 2 example com" := by
  refine ⟨rfl, rfl, ?_, rfl⟩
  decide

/-- C8 (amended): the parser removes the first case-insensitive occurrence
of the command label followed by a dot anywhere in the name and splits the
whole remainder on `.`; in particular, for names that begin with the
command label and a dot the prefix is stripped from the front, and all
remaining labels — including any top-level domain suffix, which the
handler code never strips — contribute to the arguments or expression. -/
theorem parser_strips_leading_command (query : String) :
    ((query.toList.take 5).map Char.toLower = "calc.".toList →
      calcExpression query
        = String.intercalate " " (jsSplitDot (String.mk (query.toList.drop 5))))
    ∧ ((query.toList.take 10).map Char.toLower = "translate.".toList →
      jsReplaceFirstCI "translate." query = String.mk (query.toList.drop 10)) := by
  constructor
  · intro h
    have hpat : ("calc.".toList.map Char.toLower) = "calc.".toList := by decide
    have hlen : ("calc.".toList).length = 5 := by decide
    have hfront : removeFirstCI ("calc.".toList) query.toList
        = query.toList.drop 5 := by
      have := removeFirstCI_front ("calc.".toList) query.toList
        (by decide) (by rw [hlen]; exact h)
      rw [hlen] at this
      exact this
    show String.intercalate " "
        (jsSplitDot (String.mk (removeFirstCI ("calc.".toList.map Char.toLower) query.toList)))
      = String.intercalate " " (jsSplitDot (String.mk (query.toList.drop 5)))
    rw [hpat, hfront]
  · intro h
    have hpat : ("translate.".toList.map Char.toLower) = "translate.".toList := by decide
    have hlen : ("translate.".toList).length = 10 := by decide
    have hfront : removeFirstCI ("translate.".toList) query.toList
        = query.toList.drop 10 := by
      have := removeFirstCI_front ("translate.".toList) query.toList
        (by decide) (by rw [hlen]; exact h)
      rw [hlen] at this
      exact this
    show String.mk (removeFirstCI ("translate.".toList.map Char.toLower) query.toList)
      = String.mk (query.toList.drop 10)
    rw [hpat, hfront]

/-- C8 witness: the amended theorem applied to concrete mixed-case names. -/
theorem parser_strips_leading_command_witness :
    calcExpression "CaLc.2.+.2"
      = String.intercalate " " (jsSplitDot (String.mk ("CaLc.2.+.2".toList.drop 5)))
    ∧ jsReplaceFirstCI "translate." "TRANSLATE.en.fr.hello"
      = String.mk ("TRANSLATE.en.fr.hello".toList.drop 10) :=
  ⟨(parser_strips_leading_command "CaLc.2.+.2").1 (by decide),
   (parser_strips_leading_command "TRANSLATE.en.fr.hello").2 (by decide)⟩

/-- The allow/reject verdicts of a run of in-window requests whose first
one finds the count at `c`: request number `k` of the run is allowed while
`c + k` stays within `RATE_LIMIT_MAX`. -/
def expectedFlags (c : Nat) : Nat → List Bool
  | 0 => []
  | n + 1 => decide (c + 1 ≤ CONFIG.RATE_LIMIT_MAX) :: expectedFlags (c + 1) n

/-- Requests inside the open window only increment the count — the record's
window start never moves — and request `k` of the run is allowed exactly
while the incremented count stays within the maximum. -/
theorem runRate_within (ts : List Nat) (t0 : Nat) :
    ∀ c : Nat, (∀ t ∈ ts, t < t0 + CONFIG.RATE_LIMIT_WINDOW) →
    runRate (some ⟨t0, c⟩) ts
      = (some ⟨t0, c + ts.length⟩, expectedFlags c ts.length) := by
  induction ts with
  | nil =>
    intro c h
    simp [runRate, expectedFlags]
  | cons t ts ih =>
    intro c h
    have ht : t < t0 + CONFIG.RATE_LIMIT_WINDOW := h t (List.mem_cons_self _ _)
    have hW : 0 < CONFIG.RATE_LIMIT_WINDOW := by decide
    have hcond : ¬ (CONFIG.RATE_LIMIT_WINDOW ≤ t - t0) := by omega
    have hstep : rateCheck (some ⟨t0, c⟩) t
        = (decide (c + 1 ≤ CONFIG.RATE_LIMIT_MAX), ⟨t0, c + 1⟩) := by
      simp only [rateCheck]
      rw [if_neg hcond]
    have h' : ∀ t' ∈ ts, t' < t0 + CONFIG.RATE_LIMIT_WINDOW :=
      fun t' ht' => h t' (List.mem_cons_of_mem _ ht')
    simp only [runRate, hstep]
    rw [ih (c + 1) h']
    simp only [expectedFlags, List.length_cons]
    have hc : c + 1 + ts.length = c + (ts.length + 1) := by omega
    rw [hc]

/-- C3: a client issuing `RATE_LIMIT_MAX + 1` requests within one
`RATE_LIMIT_WINDOW` (100 requests per 60000 ms) sees the first 100 allowed
and the 101st rejected; a rejected request still reaches the Dispatcher's
rate-limit branch and receives the fixed rejection answer instead of being
dispatched to a handler; and once `now - windowStart ≥ RATE_LIMIT_WINDOW`
the client's record resets to `windowStart := now, count := 1` with the
request allowed again. -/
theorem rateLimiter_rejects_then_resets (t0 : Nat) (ts : List Nat)
    (hlen : ts.length = CONFIG.RATE_LIMIT_MAX)
    (hin : ∀ t ∈ ts, t < t0 + CONFIG.RATE_LIMIT_WINDOW) :
    runRate none (t0 :: ts)
      = (some ⟨t0, CONFIG.RATE_LIMIT_MAX + 1⟩,
         List.replicate CONFIG.RATE_LIMIT_MAX true ++ [false])
    ∧ (∀ now, t0 + CONFIG.RATE_LIMIT_WINDOW ≤ now →
        rateCheck (runRate none (t0 :: ts)).1 now = (true, ⟨now, 1⟩))
    ∧ (∀ h key ck now g, g.rateLimitMap = [(ck, ⟨t0, CONFIG.RATE_LIMIT_MAX⟩)] →
        now < t0 + CONFIG.RATE_LIMIT_WINDOW →
        (dispatch h key ck now g).1 = rateLimitAnswer) := by
  have hfirst : rateCheck none t0 = (true, ⟨t0, 1⟩) := rfl
  have hmain : runRate none (t0 :: ts)
      = (some ⟨t0, CONFIG.RATE_LIMIT_MAX + 1⟩,
         List.replicate CONFIG.RATE_LIMIT_MAX true ++ [false]) := by
    simp only [runRate, hfirst]
    rw [runRate_within ts t0 1 hin, hlen]
    have h1 : 1 + CONFIG.RATE_LIMIT_MAX = CONFIG.RATE_LIMIT_MAX + 1 := by omega
    rw [h1]
    have h2 : (true : Bool) :: expectedFlags 1 CONFIG.RATE_LIMIT_MAX
        = List.replicate CONFIG.RATE_LIMIT_MAX true ++ [false] := by decide
    rw [h2]
  refine ⟨hmain, ?_, ?_⟩
  · intro now hnow
    rw [hmain]
    show rateCheck (some ⟨t0, CONFIG.RATE_LIMIT_MAX + 1⟩) now = (true, ⟨now, 1⟩)
    simp only [rateCheck]
    rw [if_pos (by omega : CONFIG.RATE_LIMIT_WINDOW ≤ now - t0)]
  · intro h key ck now g hmap hnow
    have hW : 0 < CONFIG.RATE_LIMIT_WINDOW := by decide
    have hlk : lookupList [(ck, (⟨t0, CONFIG.RATE_LIMIT_MAX⟩ : RateLimitRecord))] ck
        = some ⟨t0, CONFIG.RATE_LIMIT_MAX⟩ := by
      unfold lookupList
      rw [if_pos rfl]
    have hrc : rateCheck (some ⟨t0, CONFIG.RATE_LIMIT_MAX⟩) now
        = (false, ⟨t0, CONFIG.RATE_LIMIT_MAX + 1⟩) := by
      simp only [rateCheck]
      rw [if_neg (by omega : ¬ CONFIG.RATE_LIMIT_WINDOW ≤ now - t0)]
      have hdec : decide (CONFIG.RATE_LIMIT_MAX + 1 ≤ CONFIG.RATE_LIMIT_MAX) = false := by
        decide
      rw [hdec]
    simp [dispatch, hmap, hlk, hrc]

/-- C3 witness: the theorem at `t0 = 0` with 100 further requests at
time 1, a reset check at time 60000, and the rejected dispatch of the
101st request at time 59999. -/
theorem rateLimiter_rejects_then_resets_witness :
    runRate none (0 :: List.replicate CONFIG.RATE_LIMIT_MAX 1)
      = (some ⟨0, CONFIG.RATE_LIMIT_MAX + 1⟩,
         List.replicate CONFIG.RATE_LIMIT_MAX true ++ [false])
    ∧ rateCheck (runRate none (0 :: List.replicate CONFIG.RATE_LIMIT_MAX 1)).1 60000
      = (true, ⟨60000, 1⟩)
    ∧ (dispatch (constHandler ⟨"2 + 2 = 4", false, "calc"⟩) "calc.2.+.2" "client" 59999
        ⟨[], [("client", ⟨0, CONFIG.RATE_LIMIT_MAX⟩)], ⟨0, 0, 0, 0, []⟩⟩).1
      = rateLimitAnswer := by
  have main := rateLimiter_rejects_then_resets 0 (List.replicate CONFIG.RATE_LIMIT_MAX 1)
    (by decide) (by decide)
  exact ⟨main.1, main.2.1 60000 (by decide),
    main.2.2 (constHandler ⟨"2 + 2 = 4", false, "calc"⟩) "calc.2.+.2" "client" 59999
      ⟨[], [("client", ⟨0, CONFIG.RATE_LIMIT_MAX⟩)], ⟨0, 0, 0, 0, []⟩⟩ rfl (by decide)⟩

/-- A client's second request is always allowed: whether or not the window
has elapsed, the incremented count 2 stays within the maximum. -/
theorem rateCheck_second_allowed (t1 t2 : Nat) :
    (rateCheck (some ⟨t1, 1⟩) t2).1 = true := by
  simp only [rateCheck]
  split
  · rfl
  · rfl

/-- A freshly stored entry is a hit while the TTL has not elapsed. -/
theorem cacheGet_after_set (c : List (String × CacheEntry)) (key : String)
    (a : Answer) (t1 t2 : Nat) (ht : t2 - t1 < CACHE_TTL_MS) :
    cacheGet (cacheSet c key a t1) key t2 = some a := by
  simp [cacheGet, cacheSet, insertList, lookupList, ht]

/-- C4: issuing the same command+args twice within the TTL window yields an
answer with `cached = false` the first time (for a handler whose answer is
not pre-marked cached, as all handlers in src/ are) and `cached = true` the
second time, with identical text; the second, cache-hit dispatch does not
touch the stored cache at all. -/
theorem cache_hit_idempotent (h : GlobalState → Except String Answer × GlobalState)
    (key ck : String) (t1 t2 : Nat) (g : GlobalState) (a : Answer)
    (hmap : g.rateLimitMap = [])
    (hmiss : cacheGet g.cache key t1 = none)
    (hh : ∀ g', h g' = (.ok a, g'))
    (hca : a.cached = false)
    (ht : t2 - t1 < CACHE_TTL_MS) :
    (dispatch h key ck t1 g).1.cached = false
    ∧ (dispatch h key ck t2 (dispatch h key ck t1 g).2).1.cached = true
    ∧ (dispatch h key ck t2 (dispatch h key ck t1 g).2).1.answer
        = (dispatch h key ck t1 g).1.answer
    ∧ (dispatch h key ck t2 (dispatch h key ck t1 g).2).2.cache
        = (dispatch h key ck t1 g).2.cache := by
  have hr1 : dispatch h key ck t1 g
      = (truncateAnswer a,
         { cache := cacheSet g.cache key a t1,
           rateLimitMap := [(ck, ⟨t1, 1⟩)],
           stats := ⟨g.stats.totalQueries + 1, g.stats.cacheHits,
                     g.stats.cacheMisses + 1, g.stats.errors, g.stats.byCategory⟩ }) := by
    simp [dispatch, hmap, hmiss, hh, insertList, lookupList, rateCheck, cacheSet]
  rw [hr1]
  have hlk2 : lookupList [(ck, (⟨t1, 1⟩ : RateLimitRecord))] ck = some ⟨t1, 1⟩ := by
    simp [lookupList]
  have hrc2 := rateCheck_second_allowed t1 t2
  have hget := cacheGet_after_set g.cache key a t1 t2 ht
  refine ⟨?_, ?_, ?_, ?_⟩
  · simp [truncateAnswer, hca]
  · simp [dispatch, hlk2, hrc2, hget, truncateAnswer]
  · simp [dispatch, hlk2, hrc2, hget, truncateAnswer]
  · simp [dispatch, hlk2, hrc2, hget]

/-- C4 witness: the theorem at a concrete calc query cached at time 0 and
re-issued at time 1000, from a fresh state. -/
theorem cache_hit_idempotent_witness :
    (dispatch (constHandler ⟨"2 + 2 = 4", false, "calc"⟩) "calc.2.+.2" "client" 0
        emptyState).1.cached = false
    ∧ (dispatch (constHandler ⟨"2 + 2 = 4", false, "calc"⟩) "calc.2.+.2" "client" 1000
        (dispatch (constHandler ⟨"2 + 2 = 4", false, "calc"⟩) "calc.2.+.2" "client" 0
          emptyState).2).1.cached = true
    ∧ (dispatch (constHandler ⟨"2 + 2 = 4", false, "calc"⟩) "calc.2.+.2" "client" 1000
        (dispatch (constHandler ⟨"2 + 2 = 4", false, "calc"⟩) "calc.2.+.2" "client" 0
          emptyState).2).1.answer
      = (dispatch (constHandler ⟨"2 + 2 = 4", false, "calc"⟩) "calc.2.+.2" "client" 0
          emptyState).1.answer
    ∧ (dispatch (constHandler ⟨"2 + 2 = 4", false, "calc"⟩) "calc.2.+.2" "client" 1000
        (dispatch (constHandler ⟨"2 + 2 = 4", false, "calc"⟩) "calc.2.+.2" "client" 0
          emptyState).2).2.cache
      = (dispatch (constHandler ⟨"2 + 2 = 4", false, "calc"⟩) "calc.2.+.2" "client" 0
          emptyState).2.cache :=
  cache_hit_idempotent (constHandler ⟨"2 + 2 = 4", false, "calc"⟩)
    "calc.2.+.2" "client" 0 1000 emptyState ⟨"2 + 2 = 4", false, "calc"⟩
    rfl rfl (fun _ => rfl) rfl (by decide)

/-- C7: on a backend failure, `callAI` bumps `Stats.errors` by exactly 1,
leaves `Stats.byCategory` untouched (it is bumped on success only), leaves
the cache and rate-limit map untouched, and re-raises the same error to
its caller; and a dispatch whose handler fails this way creates no cache
entry for the query's key — the cache after the dispatch is the cache
before it. -/
theorem callAI_failure_effects (b : Backend) (prompt category msg : String)
    (g : GlobalState) (hb : b prompt = .error msg) :
    callAI b prompt category g
      = (.error msg, { g with stats := { g.stats with errors := g.stats.errors + 1 } })
    ∧ (callAI b prompt category g).2.stats.byCategory = g.stats.byCategory
    ∧ (callAI b prompt category g).2.stats.errors = g.stats.errors + 1
    ∧ (callAI b prompt category g).2.cache = g.cache
    ∧ (∀ key ck now, g.rateLimitMap = [] → cacheGet g.cache key now = none →
        (dispatch (callAI b prompt category) key ck now g).2.cache = g.cache) := by
  have hcall : ∀ g' : GlobalState, callAI b prompt category g'
      = (.error msg,
         { g' with stats := { g'.stats with errors := g'.stats.errors + 1 } }) := by
    intro g'
    simp [callAI, hb]
  refine ⟨hcall g, ?_, ?_, ?_, ?_⟩
  · rw [hcall g]
  · rw [hcall g]
  · rw [hcall g]
  · intro key ck now hmap hmiss
    simp [dispatch, hmap, hmiss, hcall, lookupList, rateCheck, insertList]

/-- C7 witness: the theorem applied to the network-failing backend on a
fresh state, including the no-cache-entry conclusion for a concrete
dispatch. -/
theorem callAI_failure_effects_witness :
    callAI backendNetErr "p" "translation" emptyState
      = (.error "network error",
         { emptyState with stats := { emptyState.stats with errors := 1 } })
    ∧ (dispatch (callAI backendNetErr "p" "translation") "translate.en.fr.hi"
        "client" 5 emptyState).2.cache = emptyState.cache := by
  have main := callAI_failure_effects backendNetErr "p" "translation"
    "network error" emptyState rfl
  exact ⟨main.1, main.2.2.2.2 "translate.en.fr.hi" "client" 5 rfl rfl⟩

/-- `callAI` touches neither the cache nor the rate-limit map, its result
does not depend on the global state, and a successful result always
carries `cached = false`. -/
theorem callAI_pres (b : Backend) (prompt category : String) :
    preservesMaps (callAI b prompt category) := by
  intro g g'
  refine ⟨?_, ?_, ?_, ?_⟩ <;>
  · cases hbp : b prompt with
    | error e => simp [callAI, hbp, okCachedFalse]
    | ok t =>
      simp only [callAI, hbp]
      split <;> simp [okCachedFalse]

/-- C10: no handler in the registry — sync-local or AI-backed — and not
`callAI` itself ever reads or writes the response cache or the rate-limit
map, and every answer a handler returns has `cached = false`. The
AI-backed handlers and `callAI` act on the global state, and the theorem
states that the cache and rate-limit components pass through unchanged
and the result is state-independent; the sync-local handlers (`calc`,
`unit`, `stats`, `help`) mention no global map in the source at all, which
the embedding reflects by their types, and their answers are never
pre-marked cached. -/
theorem handlers_no_cache_or_ratelimit_access (b : Backend) (ev : Evaluator)
    (prompt category q : String) (st : Stats) :
    preservesMaps (callAI b prompt category)
    ∧ preservesMaps (handlers_translate b q)
    ∧ preservesMaps (handlers_code b q)
    ∧ preservesMaps (handlers_timezone b q)
    ∧ preservesMaps (handlers_convert b q)
    ∧ preservesMaps (handlers_spell b q)
    ∧ preservesMaps (handlers_onthisday b q)
    ∧ preservesMaps (handlers_acronym b q)
    ∧ preservesMaps (handlers_tip b q)
    ∧ preservesMaps (handlers_weather b q)
    ∧ preservesMaps (handlers_fact b q)
    ∧ preservesMaps (handlers_define b q)
    ∧ (handlers_calc ev q).cached = false
    ∧ (handlers_unit ev q).cached = false
    ∧ (handlers_stats st).cached = false
    ∧ handlers_help.cached = false := by
  refine ⟨callAI_pres b prompt category,
    ?_, ?_, ?_, ?_, ?_, ?_, ?_, ?_, ?_, ?_, ?_, ?_, ?_, rfl, rfl⟩
  · intro g g'
    simp only [handlers_translate]
    exact callAI_pres b _ _ g g'
  · intro g g'
    simp only [handlers_code]
    exact callAI_pres b _ _ g g'
  · intro g g'
    simp only [handlers_timezone]
    exact callAI_pres b _ _ g g'
  · intro g g'
    simp only [handlers_convert]
    exact callAI_pres b _ _ g g'
  · intro g g'
    simp only [handlers_spell]
    exact callAI_pres b _ _ g g'
  · intro g g'
    simp only [handlers_onthisday]
    exact callAI_pres b _ _ g g'
  · intro g g'
    simp only [handlers_acronym]
    exact callAI_pres b _ _ g g'
  · intro g g'
    simp only [handlers_tip]
    exact callAI_pres b _ _ g g'
  · intro g g'
    simp only [handlers_weather]
    exact callAI_pres b _ _ g g'
  · intro g g'
    simp only [handlers_fact]
    exact callAI_pres b _ _ g g'
  · intro g g'
    simp only [handlers_define]
    exact callAI_pres b _ _ g g'
  · cases hev : ev (calcExpression q) <;> simp [handlers_calc, hev]
  · cases hev : ev (unitExpression q) <;> simp [handlers_unit, hev]

end AiDns
